import Mathlib

/-!
Formal model of the nexora-ai campus-assistant backend (MS-Rex/nexora-ai).

This file gives a shallow embedding, in Lean, of the query-handling pipeline of
the repository: the shared HTTP tool helper (`src/app/agents/tools/base.py`),
the moderation gate (`src/app/services/moderation_service.py`), the chat
endpoint (`src/app/api/v1/endpoints/chat.py`), the RAG retrieval service
(`src/app/services/rag_service.py`), the orchestrator prompt assembly
(`src/app/agents/orchestrator_agent.py`), the conversation store
(`src/app/services/conversation_service.py`), the service facade
(`src/app/agents/nexora_service.py`), and the bus-route tools
(`src/app/agents/tools/bus_tools.py`).

External effects (network calls, the LLM, the vector database, wall-clock
time, SQL persistence) are modelled by explicit parameters describing their
outcome, or by explicit state passing over pure data structures.  Python
floats are modelled as rationals, Python exceptions as `Except` values, and
Python dictionaries as association lists.
-/

/- ------------------------------------------------------------------ -/
/- Python string primitives, modelled over the character list of a
   Lean string so that they reduce in the kernel. -/

/-- Python `str.lower()` (the keywords and fields lowered in the source are
ASCII, so per-character lowering is faithful). -/
def lowerStr (s : String) : String := String.mk (s.data.map Char.toLower)

/-- Python `str.upper()`. -/
def upperStr (s : String) : String := String.mk (s.data.map Char.toUpper)

/-- Python `str.strip()`: remove leading and trailing whitespace. -/
def stripStr (s : String) : String :=
  String.mk ((s.data.dropWhile Char.isWhitespace).reverse.dropWhile Char.isWhitespace |>.reverse)

/-- Python `needle in hay` on strings: substring containment. -/
def subStr (needle hay : String) : Bool := decide (needle.data <:+: hay.data)

/- ------------------------------------------------------------------ -/
/- JSON values, as returned by `response.json()` in the tools.  JSON
   numerals are abstracted to integers: no claim depends on their value. -/

/-- A JSON value as decoded by Python (`dict`, `list`, `str`, `int`/`float`,
`bool`, `None`). -/
inductive Json where
  | null : Json
  | bool (b : Bool) : Json
  | num (n : Int) : Json
  | str (s : String) : Json
  | arr (xs : List Json) : Json
  | obj (kvs : List (String × Json)) : Json

/- ------------------------------------------------------------------ -/
/- src/app/agents/tools/base.py : handle_http_request -/

/-- Outcome of the underlying `httpx` call plus `raise_for_status()` and
`response.json()` inside `handle_http_request`:
`success d`   — the request succeeded, a 2xx status was returned and the body
                parsed to the JSON value `d`;
`httpError m` — an `httpx.HTTPError` was raised (transport failure or
                non-2xx status from `raise_for_status()`), with message `m`;
`otherError m` — any other exception was raised (for example a JSON decode
                failure), with message `m`. -/
inductive HttpCallOutcome where
  | success (data : Json) : HttpCallOutcome
  | httpError (msg : String) : HttpCallOutcome
  | otherError (msg : String) : HttpCallOutcome

/-- The dictionary returned by `handle_http_request`: either
`\x7b"data": ..., "success": True\x7d` or `\x7b"error": ..., "success": False\x7d`. -/
structure RequestResult where
  data : Option Json
  error : Option String
  success : Bool

/-- `handle_http_request(client, url, method, **kwargs)` from
`src/app/agents/tools/base.py` lines 175-211.  The function body is one big
`try`: an unsupported method raises `HTTPToolError`, which is not an
`httpx.HTTPError` and is therefore caught by the generic `except Exception`
branch; `httpx.HTTPError` is caught first and tagged
`"HTTP request failed: ..."`; every other exception is tagged
`"Unexpected error: ..."`.  The client, URL and extra kwargs only influence
which `HttpCallOutcome` the network produces, so they are absorbed into the
`outcome` parameter. -/
def handle_http_request (method : String) (outcome : HttpCallOutcome) : RequestResult :=
  if upperStr method = "GET" ∨ upperStr method = "POST" then
    match outcome with
    | .success d => { data := some d, error := none, success := true }
    | .httpError m =>
        { data := none, error := some ("HTTP request failed: " ++ m), success := false }
    | .otherError m =>
        { data := none, error := some ("Unexpected error: " ++ m), success := false }
  else
    { data := none
      error := some ("Unexpected error: Unsupported HTTP method: " ++ method)
      success := false }

/- ------------------------------------------------------------------ -/
/- src/app/services/moderation_service.py -/

/-- `ModerationCategory` (lines 19-32): the per-category boolean breakdown. -/
structure ModerationCategory where
  hate : Bool := false
  hate_threatening : Bool := false
  harassment : Bool := false
  harassment_threatening : Bool := false
  self_harm : Bool := false
  self_harm_intent : Bool := false
  self_harm_instructions : Bool := false
  sexual : Bool := false
  sexual_minors : Bool := false
  violence : Bool := false
  violence_graphic : Bool := false
deriving DecidableEq, Repr

/-- `ModerationResult` (lines 35-47). -/
structure ModerationResult where
  flagged : Bool
  categories : ModerationCategory
  reason : Option String := none
  confidence : Option ℚ := none
deriving DecidableEq, Repr

/-- The static fallback keyword table `self.flagged_keywords` (lines 58-64),
in source order. -/
def flagged_keywords : List (String × List String) :=
  [("hate", ["hate", "racist", "nazi", "white supremacy"]),
   ("violence", ["kill", "murder", "bomb", "terrorist"]),
   ("sexual", ["Fuck", "Tits", "Porn", "Nude"]),
   ("harassment", ["harass", "bully", "threaten"]),
   ("self_harm", ["suicide", "self harm", "cut myself"])]

/-- The categories a given content string trips in the keyword scan.  The
source iterates `self.flagged_keywords.items()` in insertion order and
appends the category on the first matching keyword (`break`), which builds
exactly the in-order list of categories having some matching keyword. -/
def keyword_flagged_categories (content : String) : List String :=
  (flagged_keywords.filter
    (fun ck => ck.2.any (fun kw => subStr (lowerStr kw) (lowerStr content)))).map (·.1)

/-- `ModerationService._keyword_moderation` (lines 149-179). -/
def keyword_moderation (content : String) : ModerationResult :=
  let flagged_categories := keyword_flagged_categories content
  let flagged : Bool := !flagged_categories.isEmpty
  { flagged := flagged
    categories :=
      { hate := flagged_categories.contains "hate"
        violence := flagged_categories.contains "violence"
        sexual := flagged_categories.contains "sexual"
        harassment := flagged_categories.contains "harassment"
        self_harm := flagged_categories.contains "self_harm" }
    reason :=
      if flagged then
        some ("Content flagged for: " ++ String.intercalate ", " flagged_categories)
      else none
    confidence := some (if flagged then (1 : ℚ) / 2 else 0) }

/-- Outcome of the external OpenAI moderation POST inside
`_openai_moderation`:
`response status flagged cats` — the POST returned HTTP `status`; when
`status = 200`, `flagged` and the category map `cats` are the parsed fields
of `data["results"][0]`;
`raises m` — the POST, `response.json()`, or the field accesses raised an
exception with message `m`. -/
inductive ModApiOutcome where
  | response (status : Nat) (flagged : Bool) (cats : List (String × Bool)) : ModApiOutcome
  | raises (msg : String) : ModApiOutcome
deriving DecidableEq, Repr

/-- `result["categories"].get(key, False)`. -/
def cat_flag (cats : List (String × Bool)) (key : String) : Bool :=
  (((cats.find? (fun kv => kv.1 == key)).map (·.2)).getD false)

/-- `ModerationService._openai_moderation` (lines 97-147).  A non-200 status
falls back to the keyword scan; a raised exception propagates to the caller
(`Except.error`). -/
def openai_moderation (content : String) (o : ModApiOutcome) :
    Except String ModerationResult :=
  match o with
  | .raises m => .error m
  | .response status flagged cats =>
      if status ≠ 200 then .ok (keyword_moderation content)
      else
        .ok
          { flagged := flagged
            categories :=
              { hate := cat_flag cats "hate"
                hate_threatening := cat_flag cats "hate/threatening"
                harassment := cat_flag cats "harassment"
                harassment_threatening := cat_flag cats "harassment/threatening"
                self_harm := cat_flag cats "self-harm"
                self_harm_intent := cat_flag cats "self-harm/intent"
                self_harm_instructions := cat_flag cats "self-harm/instructions"
                sexual := cat_flag cats "sexual"
                sexual_minors := cat_flag cats "sexual/minors"
                violence := cat_flag cats "violence"
                violence_graphic := cat_flag cats "violence/graphic" }
            reason :=
              if flagged then
                some ("Content flagged for: " ++
                  String.intercalate ", " ((cats.filter (·.2)).map (·.1)))
              else none
            confidence := none }

/-- The fail-open verdict built in the `except` branch of `moderate_content`
(lines 86-95). -/
def fail_open_result : ModerationResult :=
  { flagged := false
    categories := {}
    reason := some "Moderation service unavailable" }

/-- `ModerationService.moderate_content` (lines 66-95).  `has_api_key`
reflects `self.api_key` being set.  The whole body is wrapped in a `try`
whose `except Exception` returns the fail-open verdict; the keyword scan
itself is exception-free (pure string work), so the only exception source
is the external call modelled by `ModApiOutcome.raises`. -/
def moderate_content (has_api_key : Bool) (o : ModApiOutcome) (content : String) :
    ModerationResult :=
  if has_api_key then
    match openai_moderation content o with
    | .ok r => r
    | .error _ => fail_open_result
  else keyword_moderation content

/-- `ModerationService.get_moderation_response_message` (lines 181-200):
the fixed campus-redirect message for flagged content, empty otherwise. -/
def moderation_redirect_message : String :=
  "I\x27m sorry, but I cannot process messages that may contain inappropriate content. " ++
  "As Nexora Campus Copilot, I\x27m designed to help with university-related questions " ++
  "and maintain a respectful academic environment. Please rephrase your question " ++
  "in a way that focuses on campus resources, events, departments, or academic support."

/-- `get_moderation_response_message(result)`. -/
def get_moderation_response_message (result : ModerationResult) : String :=
  if result.flagged = false then "" else moderation_redirect_message

/- ------------------------------------------------------------------ -/
/- src/app/api/v1/endpoints/chat.py : enhanced_chat_with_agent -/

/-- The inbound `ChatRequest` fields used by the endpoint. -/
structure ChatRequestData where
  message : String
  user_id : Option String := none
  session_id : Option String := none
deriving DecidableEq, Repr

/-- The dictionary produced by `nexora_service.chat` as consumed by the
endpoint (`response`, `agent_used`, `success`, optional `error`). -/
structure FacadeResult where
  response : String
  agent_used : String
  success : Bool
  error : Option String := none
deriving DecidableEq, Repr

/-- The `EnhancedChatResponse` schema fields set by the endpoint. -/
structure EnhancedChatResponse where
  response : String
  agent_name : String
  intent : String
  agent_used : String
  success : Bool
  error : Option String
  session_id : Option String
  moderated : Bool
  content_flagged : Bool
  moderation_reason : Option String
deriving DecidableEq, Repr

/-- `enhanced_chat_with_agent` (chat.py lines 16-91), paired with the number
of times `nexora_service.chat` (and hence the Orchestrator, its tools and
its model) is invoked while serving the request.  `facade_result` is the
value `nexora_service.chat` would return in the unflagged branch; in the
flagged branch it is never consulted. -/
def enhanced_chat_with_agent (has_api_key : Bool) (mod_outcome : ModApiOutcome)
    (request : ChatRequestData) (facade_result : FacadeResult) :
    EnhancedChatResponse × Nat :=
  let moderation_result := moderate_content has_api_key mod_outcome request.message
  if moderation_result.flagged then
    ({ response := get_moderation_response_message moderation_result
       agent_name := "Nexora Campus Copilot"
       intent := "moderation"
       agent_used := "Content Moderation"
       success := true
       error := none
       session_id := request.session_id
       moderated := true
       content_flagged := true
       moderation_reason := moderation_result.reason }, 0)
  else
    ({ response := facade_result.response
       agent_name := "Nexora Campus Copilot"
       intent := "campus"
       agent_used := facade_result.agent_used
       success := facade_result.success
       error := facade_result.error
       session_id := request.session_id
       moderated := true
       content_flagged := false
       moderation_reason := none }, 1)

/- ------------------------------------------------------------------ -/
/- src/app/services/rag_service.py : search_knowledge (lines 193-241) -/

/-- A row returned by the LanceDB hybrid search after reranking, as consumed
by `search_knowledge` and `_get_rag_context`: its `text`, its `source_file`
and its optional `_relevance_score` (float scores modelled as rationals;
`result.get("_relevance_score", 0)` reads 0 when the key is absent). -/
structure SearchResult where
  text : String
  source_file : String
  score : Option ℚ
deriving DecidableEq, Repr

/-- `result.get("_relevance_score", 0)`. -/
def relevance (r : SearchResult) : ℚ := r.score.getD 0

/-- `search_limit = limit or self.max_results` inside
`RAGService.search_knowledge`: a `limit` of `None` or 0 falls back to
`max_results`, because 0 is falsy in Python. -/
def search_limit_of (limit : Option Nat) (max_results : Nat) : Nat :=
  match limit with
  | none => max_results
  | some n => if n = 0 then max_results else n

/-- `RAGService.search_knowledge` (lines 193-241).  `table_exists` reflects
`self.table_name in db.table_names()` (a missing table returns `[]`);
`ranked` is the list the LanceDB hybrid query would yield for the query
string, in reranked order, before the `.limit(search_limit)` clause (which
the model applies with `List.take`).  The surviving rows are those with
`_relevance_score ≥ self.similarity_threshold`. -/
def search_knowledge (table_exists : Bool) (ranked : List SearchResult)
    (limit : Option Nat) (max_results : Nat) (similarity_threshold : ℚ) :
    List SearchResult :=
  if table_exists = false then []
  else
    (ranked.take (search_limit_of limit max_results)).filter
      (fun r => decide (similarity_threshold ≤ relevance r))

/-- Part of `RAGService.get_context_from_results` (lines 243-259): the
two-decimal rendering of a relevance score standing in for the `:.2f`
format of the float score (the rounding mode of float formatting is
abstracted; no claim depends on the digits). -/
def fmtScore (q : ℚ) : String :=
  let cents : Int := ⌊q * 100⌋
  let frac := (cents % 100).natAbs
  toString (cents / 100) ++ "." ++ (if frac < 10 then "0" else "") ++ toString frac

/- ------------------------------------------------------------------ -/
/- src/app/services/rag_service.py : chunk_text (lines 63-78) -/

/-- The token-window split at the heart of `RAGService.chunk_text`:
`for i in range(0, len(tokens), chunk_size): chunks.append(tokens[i:i+chunk_size])`.
A `chunk_size` of 0 makes `range` raise `ValueError`, which the surrounding
`except` turns into the single-chunk fallback `[text]`; that branch is the
`cs = 0` case below. -/
def chunkTokens (cs : Nat) (ts : List Nat) : List (List Nat) :=
  if cs = 0 then [ts]
  else if _h : ts = [] then []
  else ts.take cs :: chunkTokens cs (ts.drop cs)
termination_by ts.length
decreasing_by
  simp only [List.length_drop]
  have : ts.length ≠ 0 := fun h0 => _h (List.eq_nil_of_length_eq_zero h0)
  omega

/-- `RAGService.chunk_text` (lines 63-78).  The tiktoken encoder and decoder
are abstracted as the parameters `enc` and `dec`; the `except` fallback to
`[text]` fires only on tokenizer failure, which a total `enc` cannot
produce, and on `chunk_size = 0` (handled inside `chunkTokens`). -/
def chunk_text (chunk_size : Nat) (enc : String → List Nat) (dec : List Nat → String)
    (text : String) : List String :=
  (chunkTokens chunk_size (enc text)).map dec

/-- Closed form for the window lengths produced by `chunkTokens` on an
`n`-token input: `ceil(n / cs)` windows, window `i` holding
`min cs (n - i*cs)` tokens. -/
def chunkLens (cs n : Nat) : List Nat :=
  (List.range ((n + cs - 1) / cs)).map (fun i => min cs (n - i * cs))

/-- One stored knowledge-base document chunk, as assembled by
`RAGService._process_markdown_files` (lines 141-173). -/
structure RagDocument where
  id : String
  text : String
  source_file : String
  chunk_index : Nat
  file_path : String
  file_size : Nat
  total_chunks : Nat
deriving DecidableEq, Repr

/-- The per-file loop body of `_process_markdown_files` (lines 145-167):
chunk the file content with `chunk_text`, then build one document record per
chunk with `total_chunks = len(chunks)` on each.  The file content is given
by its token list `tokens` (with `dec` decoding token windows back to text)
to keep the token accounting explicit. -/
def process_markdown_file (chunk_size : Nat) (dec : List Nat → String)
    (stem name path : String) (file_size : Nat) (tokens : List Nat) :
    List RagDocument :=
  let chunks := (chunkTokens chunk_size tokens).map dec
  chunks.enum.map (fun p =>
    { id := stem ++ "_chunk_" ++ toString p.1
      text := p.2
      source_file := name
      chunk_index := p.1
      file_path := path
      file_size := file_size
      total_chunks := chunks.length })

/- ------------------------------------------------------------------ -/
/- src/app/agents/tools/base.py : datetime context formatting -/

/-- The fields of the dictionary built by `generate_datetime_context`
(base.py lines 18-100) that `format_datetime_context_for_prompt` reads.
The wall clock is external, so the snapshot is a parameter; `error` is set
exactly when the generator fell into its `except` branch, and the two UTC
fields are either both present or both absent (they are added together by
one `dict.update`). -/
structure DatetimeContext where
  timestamp : String
  formatted_readable : String
  time_12h : String
  time : String
  tz : String
  day_of_year : Nat
  year : Nat
  week_number : Nat
  is_weekend : Bool
  formatted_short : String
  unix_timestamp : Int
  utc_time : Option String := none
  utc_date : Option String := none
  error : Option String := none
deriving DecidableEq, Repr

/-- `format_datetime_context_for_prompt` (base.py lines 103-140). -/
def format_datetime_context_for_prompt (c : DatetimeContext) : String :=
  match c.error with
  | some e => "**Current DateTime:** " ++ e
  | none =>
    let context_lines :=
      ["**CURRENT DATE & TIME CONTEXT:**",
       "📅 **Date:** " ++ c.formatted_readable,
       "🕒 **Time:** " ++ c.time_12h ++ " (" ++ c.time ++ " 24h format)",
       "📍 **Timezone:** " ++ c.tz,
       "📊 **Details:** Day " ++ toString c.day_of_year ++ " of " ++ toString c.year ++
         ", Week " ++ toString c.week_number,
       "🗓️ **Day Type:** " ++ (if c.is_weekend then "Weekend" else "Weekday"),
       "",
       "**Available DateTime Formats:**",
       "- ISO Timestamp: " ++ c.timestamp,
       "- Short Date: " ++ c.formatted_short,
       "- Unix Timestamp: " ++ toString c.unix_timestamp]
    let withUtc := context_lines ++
      (match c.utc_time, c.utc_date with
       | some ut, some ud => ["- UTC Time: " ++ ut, "- UTC Date: " ++ ud]
       | _, _ => [])
    String.intercalate "\n" (withUtc ++ ["---"])

/- ------------------------------------------------------------------ -/
/- src/app/agents/orchestrator_agent.py : _get_rag_context and the
   enhanced prompt of handle_query -/

/-- The source header `_get_rag_context` writes for the `i`-th search result
(orchestrator_agent.py lines 125-127). -/
def rag_source_header (i : Nat) (r : SearchResult) : String :=
  "**Source " ++ toString i ++ ": " ++ r.source_file ++
    " (Relevance: " ++ fmtScore (relevance r) ++ ")**"

/-- The parts appended for one enumerated result inside the loop of
`_get_rag_context` (lines 118-129): header, text and separator when the
score passes `settings.RAG_SIMILARITY_THRESHOLD`, nothing otherwise. -/
def rag_entry_parts (thr : ℚ) (ir : Nat × SearchResult) : List String :=
  if thr ≤ relevance ir.2 then [rag_source_header ir.1 ir.2, ir.2.text, "---"] else []

/-- The full `context_parts` list of `_get_rag_context` before the closing
marker: the fixed header followed by the per-result parts, results
enumerated from 1 (`enumerate(results, 1)`). -/
def rag_context_parts (thr : ℚ) (results : List SearchResult) : List String :=
  "**Knowledge Base Context:**\n" ::
    (results.enum.map (fun p => (p.1 + 1, p.2))).flatMap (rag_entry_parts thr)

/-- `OrchestratorAgent._get_rag_context` (lines 84-140).  `kb_loaded`
reflects `rag_service.is_knowledge_base_loaded()`; `ranked` is the reranked
LanceDB result list fed to `search_knowledge` with `limit=5`, exactly as in
the `search_knowledge` model; the service and the orchestrator read the
same `settings.RAG_SIMILARITY_THRESHOLD`, passed as `thr`. -/
def get_rag_context (kb_loaded : Bool) (ranked : List SearchResult)
    (max_results : Nat) (thr : ℚ) : String :=
  if kb_loaded = false then ""
  else
    let results := search_knowledge kb_loaded ranked (some 5) max_results thr
    if results = [] then ""
    else
      let parts := rag_context_parts thr results
      if 1 < parts.length then
        String.intercalate "\n" (parts ++ ["\n**End of Knowledge Base Context**\n"])
      else ""

/-- The enhanced prompt assembly of `OrchestratorAgent.handle_query`
(lines 190-200): datetime block, then the RAG context only when non-empty
(`if rag_context:`), then the tagged user query, joined by blank lines. -/
def orchestrator_enhanced_message (ctx : DatetimeContext) (rag_context : String)
    (message : String) : String :=
  let enhanced_message_parts :=
    [format_datetime_context_for_prompt ctx] ++
      (if rag_context = "" then [] else [rag_context]) ++
      ["**User Query:** " ++ message]
  String.intercalate "\n\n" enhanced_message_parts

/-- The prompt `handle_query` passes to `self.agent.run`, composing
`_get_rag_context` with the prompt assembly. -/
def handle_query_prompt (kb_loaded : Bool) (ranked : List SearchResult)
    (max_results : Nat) (thr : ℚ) (ctx : DatetimeContext) (message : String) : String :=
  orchestrator_enhanced_message ctx (get_rag_context kb_loaded ranked max_results thr) message

/- ------------------------------------------------------------------ -/
/- src/app/services/conversation_service.py and the database models of
   src/app/models/database/conversation.py.

   The relational store is modelled as explicit state.  Server-assigned
   `created_at` timestamps are strictly increasing in insertion order, so
   a message list kept in insertion order carries the same information and
   `ORDER BY created_at DESC` is list reversal.  UUID primary keys are
   abstracted to fresh natural numbers. -/

/-- A row of the `messages` table. -/
structure DbMessage where
  conversation_id : Nat
  content : String
  role : String
  agent_name : Option String := none
  agent_used : Option String := none
  intent : Option String := none
  success : Option Bool := none
  error_message : Option String := none
  usage_data : Option String := none
  response_time_ms : Option Nat := none
deriving DecidableEq, Repr

/-- A row of the `conversations` table (the timestamp columns are managed by
the database server and carry no claim-relevant information beyond the
insertion order already modelled). -/
structure DbConversation where
  id : Nat
  session_id : String
  user_id : Option String := none
  title : Option String := none
  is_active : Bool := true
  total_messages : Nat := 0
deriving DecidableEq, Repr

/-- The database state: conversations and messages in insertion order. -/
structure ConvDB where
  convs : List DbConversation
  msgs : List DbMessage
deriving DecidableEq, Repr

/-- The messages of one conversation, in `created_at` (insertion) order. -/
def messagesOf (db : ConvDB) (cid : Nat) : List DbMessage :=
  db.msgs.filter (fun m => m.conversation_id == cid)

/-- `select(Conversation).where(Conversation.session_id == session_id)` with
`scalar_one_or_none()` (session_id is unique, so the first match is the
row). -/
def find_conversation (db : ConvDB) (session_id : String) : Option DbConversation :=
  db.convs.find? (fun c => c.session_id == session_id)

/-- `select(Conversation).where(Conversation.id == conversation_id)`. -/
def conversation_by_id (db : ConvDB) (cid : Nat) : Option DbConversation :=
  db.convs.find? (fun c => c.id == cid)

/-- `pydantic_ai` message shape produced by `Message.to_model_message`
(conversation.py lines 103-108): a `ModelRequest` with a `UserPromptPart`
for user rows, a `ModelResponse` with a `TextPart` otherwise. -/
inductive ModelMsg where
  | request (content : String) : ModelMsg
  | response (content : String) : ModelMsg
deriving DecidableEq, Repr

/-- `Message.to_model_message`. -/
def to_model_message (m : DbMessage) : ModelMsg :=
  if m.role == "user" then .request m.content else .response m.content

/-- `ConversationService.get_conversation_history` (lines 148-191): find the
conversation by session id (unknown session returns `[]`), select its
messages `ORDER BY created_at DESC LIMIT limit`, then reverse into
chronological order while converting each row. -/
def get_conversation_history (db : ConvDB) (session_id : String) (limit : Nat) :
    List ModelMsg :=
  match find_conversation db session_id with
  | none => []
  | some conversation =>
    let messages := ((messagesOf db conversation.id).reverse).take limit
    (messages.reverse).map to_model_message

/-- `ConversationService.get_or_create_conversation` (lines 28-71): return
the existing conversation for the session (touching only `last_activity`,
which the model does not track) or insert a fresh one with no title. -/
def get_or_create_conversation (db : ConvDB) (session_id : String)
    (user_id : Option String) : ConvDB × DbConversation :=
  match find_conversation db session_id with
  | some conversation => (db, conversation)
  | none =>
    let conversation : DbConversation :=
      { id := db.convs.length, session_id := session_id, user_id := user_id, title := none }
    ({ db with convs := db.convs ++ [conversation] }, conversation)

/-- The title truncation of `_update_conversation_metadata` (lines 254-260):
`title = first_message_content[:50].strip()`, with `"..."` appended when the
content exceeds 50 characters. -/
def truncate_title (content : String) : String :=
  let t := stripStr (content.take 50)
  if 50 < content.length then t ++ "..." else t

/-- `ConversationService._update_conversation_metadata` (lines 229-269):
look up the conversation (`scalar_one()` raises `NoResultFound` when it is
absent), recompute `total_messages` as the count of the message rows
of the conversation (the pending insert is visible to the count query through
SQLAlchemy autoflush, so the caller adds the message to the state first),
and set the title from `first_message_content` only when the current title
is falsy (`None` or empty) and the content is truthy (non-empty).  The
per-row update applied to the conversation is factored out first. -/
def apply_metadata_update (count : Nat) (first_message_content : Option String)
    (c : DbConversation) : DbConversation :=
  let c1 := { c with total_messages := count }
  match first_message_content with
  | some fc =>
    if (c1.title.getD "" = "") ∧ fc ≠ "" then { c1 with title := some (truncate_title fc) }
    else c1
  | none => c1

/-- `ConversationService._update_conversation_metadata`, continued: the
state transition. -/
def update_conversation_metadata (db : ConvDB) (cid : Nat)
    (first_message_content : Option String) : Except String ConvDB :=
  match conversation_by_id db cid with
  | none => .error "NoResultFound"
  | some _ =>
    .ok { db with convs := db.convs.map (fun c =>
      if c.id == cid then
        apply_metadata_update (messagesOf db cid).length first_message_content c
      else c) }

/-- `ConversationService.save_user_message` (lines 73-99): insert the user
row, then update the conversation metadata passing the message content; any
error rolls the transaction back (the caller keeps the pre-call state) and
re-raises. -/
def save_user_message (db : ConvDB) (conversation_id : Nat) (content : String) :
    Except String ConvDB :=
  let db1 := { db with msgs := db.msgs ++
    [{ conversation_id := conversation_id, content := content, role := "user" }] }
  update_conversation_metadata db1 conversation_id (some content)

/-- The `agent_data` dictionary consumed by `save_assistant_message`. -/
structure AgentData where
  agent_name : Option String := none
  agent_used : Option String := none
  intent : Option String := none
  success : Option Bool := none
deriving DecidableEq, Repr

/-- The `metadata` dictionary consumed by `save_assistant_message`. -/
structure MsgMetadata where
  usage_data : Option String := none
  response_time_ms : Option Nat := none
  error_message : Option String := none
deriving DecidableEq, Repr

/-- `ConversationService.save_assistant_message` (lines 101-146): insert the
assistant row built from `agent_data.get(...)` and `metadata.get(...)`
(`success` defaults to `True`), then update the metadata passing no first
message content. -/
def save_assistant_message (db : ConvDB) (conversation_id : Nat) (content : String)
    (agent_data : AgentData) (metadata : MsgMetadata) : Except String ConvDB :=
  let db1 := { db with msgs := db.msgs ++
    [{ conversation_id := conversation_id
       content := content
       role := "assistant"
       agent_name := agent_data.agent_name
       agent_used := agent_data.agent_used
       intent := agent_data.intent
       success := some (agent_data.success.getD true)
       usage_data := metadata.usage_data
       response_time_ms := metadata.response_time_ms
       error_message := metadata.error_message }] }
  update_conversation_metadata db1 conversation_id none

/-- One successful-path save against a conversation, for stating the
conversation-accounting invariant. -/
inductive SaveOp where
  | user (content : String) : SaveOp
  | assistant (content : String) (agent_data : AgentData) (metadata : MsgMetadata) : SaveOp
deriving DecidableEq, Repr

/-- Run one save operation. -/
def run_save (db : ConvDB) (cid : Nat) : SaveOp → Except String ConvDB
  | .user c => save_user_message db cid c
  | .assistant c a m => save_assistant_message db cid c a m

/-- Run a sequence of save operations, stopping at the first failure. -/
def run_saves (db : ConvDB) (cid : Nat) : List SaveOp → Except String ConvDB
  | [] => .ok db
  | op :: rest =>
    match run_save db cid op with
    | .error e => .error e
    | .ok db1 => run_saves db1 cid rest

/-- The content of the first user save whose content is non-empty and whose
truncated title is non-empty: the message whose content the code freezes
into the conversation title (an earlier whitespace-only user message can
only write an empty title, which stays overwritable). -/
def first_titling_user_content : List SaveOp → Option String
  | [] => none
  | .user c :: rest =>
    if c ≠ "" ∧ truncate_title c ≠ "" then some c else first_titling_user_content rest
  | .assistant _ _ _ :: rest => first_titling_user_content rest

/-- The title transition `_update_conversation_metadata` performs on one
save: a user save may set the title when the current one is falsy and the
content truthy; an assistant save never touches it. -/
def title_step (t : Option String) : SaveOp → Option String
  | .user fc => if (t.getD "" = "") ∧ fc ≠ "" then some (truncate_title fc) else t
  | .assistant _ _ _ => t

/-- The title after a sequence of saves. -/
def title_fold (t : Option String) : List SaveOp → Option String
  | [] => t
  | op :: rest => title_fold (title_step t op) rest

/-- The save sequence of the conversation-accounting witness: an assistant
turn, then a user turn whose content strips to `"hi there"`, then another
user turn. -/
def c8_witness_ops : List SaveOp :=
  [SaveOp.assistant "Answer" {} {},
   SaveOp.user "  hi there  ",
   SaveOp.user "second question"]

/-- The database state after running `c8_witness_ops` against a fresh
conversation of session `"s"`. -/
def c8_witness_db : ConvDB :=
  { convs := [{ id := 0, session_id := "s", user_id := none, title := some "hi there"
                is_active := true, total_messages := 3 }]
    msgs :=
      [{ conversation_id := 0, content := "Answer", role := "assistant"
         success := some true },
       { conversation_id := 0, content := "  hi there  ", role := "user" },
       { conversation_id := 0, content := "second question", role := "user" }] }

/-- A stored conversation with 25 chronological user turns, used to witness
the history-window behaviour. -/
def c7_witness_db : ConvDB :=
  { convs := [{ id := 0, session_id := "s" }]
    msgs := (List.range 25).map (fun i =>
      { conversation_id := 0, content := "m" ++ toString (i + 1), role := "user" }) }

/- ------------------------------------------------------------------ -/
/- src/app/agents/nexora_service.py : NexoraService._process_with_history -/

/-- Steps of `_process_with_history` in execution order, used to state the
ordering guarantees of the facade. -/
inductive FacadeEvent where
  | read_history (turns : Nat) : FacadeEvent
  | save_user_message : FacadeEvent
  | orchestrator_invoked : FacadeEvent
  | save_assistant_attempt : FacadeEvent
  | assistant_saved : FacadeEvent
deriving DecidableEq, Repr

/-- The fixed apology of the facade error paths (nexora_service.py lines
98 and 191/207). -/
def technical_difficulties_message : String :=
  "I apologize, but I\x27m experiencing technical difficulties. Please try again later."

/-- Both `save_assistant_message` call sites of the facade
(nexora_service.py lines 162-171 and 193-202) pass the keyword arguments
`agent_name`, `agent_used`, `intent`, `success`, `usage_data`,
`response_time_ms` (and `error_message` on the error path), but
`ConversationService.save_assistant_message` accepts only
`(conversation_id, content, agent_data, metadata)`, so Python raises
`TypeError` at the call, before the method body can run: the database state
is untouched and control transfers to the enclosing exception handler. -/
def facade_save_assistant_call (_db : ConvDB) (_conversation_id : Nat)
    (_content : String) : Except String ConvDB :=
  .error "save_assistant_message() got an unexpected keyword argument \x27agent_name\x27"

/-- The error-path return dictionary of `_process_with_history`
(lines 206-215). -/
def facade_error_result (e : String) : FacadeResult :=
  { response := technical_difficulties_message
    agent_used := "Nexora Campus Copilot"
    success := false
    error := some e }

/-- `NexoraService._process_with_history` (lines 113-215), for a clean
(already-moderated) message.  `orchestrator_response` is the string
`orchestrator.handle_query` returns: `handle_query` traps every exception
internally and returns a fallback string, so the orchestrator call itself
never raises.  The trace records the observable steps in order.  The
`except` handler tries a best-effort error-turn save — which hits the same
`TypeError` as the primary save and is swallowed by the bare `except:
pass` — and then returns the error dictionary. -/
def process_with_history (db : ConvDB) (message : String) (user_id : Option String)
    (session_id : String) (orchestrator_response : String) :
    ConvDB × List FacadeEvent × FacadeResult :=
  let (db1, conversation) := get_or_create_conversation db session_id user_id
  let message_history := get_conversation_history db1 session_id 20
  let trace0 := [FacadeEvent.read_history message_history.length]
  match save_user_message db1 conversation.id message with
  | .error e =>
    -- the exception handler: best-effort error-turn save, then error result
    (match facade_save_assistant_call db1 conversation.id technical_difficulties_message with
     | .ok db2 => (db2, trace0 ++ [.save_assistant_attempt], facade_error_result e)
     | .error _ => (db1, trace0 ++ [.save_assistant_attempt], facade_error_result e))
  | .ok db2 =>
    let response := orchestrator_response
    let trace1 := trace0 ++ [.save_user_message, .orchestrator_invoked, .save_assistant_attempt]
    match facade_save_assistant_call db2 conversation.id response with
    | .ok db3 =>
      (db3, trace1 ++ [.assistant_saved],
        { response := response
          agent_used := "Nexora Campus Copilot"
          success := true
          error := none })
    | .error e =>
      -- TypeError from the primary save: the handler re-attempts the save
      -- with the same mismatched keywords, swallows that failure, and
      -- returns the error dictionary built from the primary exception
      (match facade_save_assistant_call db2 conversation.id technical_difficulties_message with
       | .ok db3 => (db3, trace1, facade_error_result e)
       | .error _ => (db2, trace1, facade_error_result e))

/- ------------------------------------------------------------------ -/
/- src/app/agents/tools/bus_tools.py -/

/-- Python `"error" in x` on an arbitrary JSON value: key containment for a
dict, element membership for a list (where only the string `"error"` can
compare equal to `"error"`), substring containment for a string, and a
`TypeError` for the non-iterable values `int`/`float`, `bool` and `None`. -/
def py_contains_error : Json → Except String Bool
  | .obj kvs => .ok (kvs.any (fun kv => kv.1 == "error"))
  | .arr xs => .ok (xs.any (fun v => match v with | .str s => s == "error" | _ => false))
  | .str s => .ok (subStr "error" s)
  | .num _ => .error "argument of type \x27int\x27 is not iterable"
  | .bool _ => .error "argument of type \x27bool\x27 is not iterable"
  | .null => .error "argument of type \x27NoneType\x27 is not iterable"

/-- Python `str()` of a JSON value, used inside the route filters.  Strings
render as themselves and scalars as their Python spelling; the rendering of
nested containers approximates CPython `repr` (no claim depends on it). -/
def py_str : Json → String
  | .str s => s
  | .num n => toString n
  | .bool b => if b then "True" else "False"
  | .null => "None"
  | .arr _ => "[...]"
  | .obj _ => "\x7b...\x7d"

/-- `str(route.get(key, "")).lower()` for a dict route. -/
def route_field_lower (kvs : List (String × Json)) (key : String) : String :=
  lowerStr (py_str (((kvs.find? (fun kv => kv.1 == key)).map (·.2)).getD (.str "")))

/-- The match predicate of the `search_bus_routes` loop (bus_tools.py lines
75-87): substring of the lowered query in route name, number, start point or
end point.  A non-dict route raises `AttributeError` at `route.get`. -/
def route_matches_query (query_lower : String) : Json → Except String Bool
  | .obj kvs =>
    .ok (subStr query_lower (route_field_lower kvs "route_name") ||
         subStr query_lower (route_field_lower kvs "route_number") ||
         subStr query_lower (route_field_lower kvs "start_point") ||
         subStr query_lower (route_field_lower kvs "end_point"))
  | _ => .error "object has no attribute \x27get\x27"

/-- The match predicate of the `get_routes_by_status` loop (lines 123-127). -/
def route_matches_status (status_lower : String) : Json → Except String Bool
  | .obj kvs => .ok (subStr status_lower (route_field_lower kvs "status"))
  | _ => .error "object has no attribute \x27get\x27"

/-- The match predicate of the `get_routes_by_time_range` loop (lines
163-172): read `departure_time` (default `""`), skip falsy values, take the
first two `":"`-separated fields and compare the reassembled `"HH:MM"`
string lexicographically against the bounds.  A non-string truthy value
raises `AttributeError` at `.split`; a non-dict route raises at `.get`. -/
def route_in_time_range (start_time end_time : String) : Json → Except String Bool
  | .obj kvs =>
    match ((kvs.find? (fun kv => kv.1 == "departure_time")).map (·.2)).getD (.str "") with
    | .str s =>
      if s = "" then .ok false
      else
        let dep_time := (s.splitOn ":").take 2
        if 2 ≤ dep_time.length then
          let dep_hour_min := dep_time.getD 0 "" ++ ":" ++ dep_time.getD 1 ""
          .ok (decide (start_time ≤ dep_hour_min ∧ dep_hour_min ≤ end_time))
        else .ok false
    | .null => .ok false
    | .num 0 => .ok false
    | .bool false => .ok false
    | .arr [] => .ok false
    | .obj [] => .ok false
    | _ => .error "object has no attribute \x27split\x27"
  | _ => .error "object has no attribute \x27get\x27"

/-- The `for route in all_routes` filter loop shared by the three tools:
keep the routes whose predicate holds, propagating the first exception. -/
def filter_routes (p : Json → Except String Bool) : List Json → Except String (List Json)
  | [] => .ok []
  | r :: rest => do
    let keep ← p r
    let tail ← filter_routes p rest
    pure (if keep then r :: tail else tail)

/-- The body shared by the three filtering tools after the fetch: check
`"error" in all_routes` (returning `all_routes` itself when it holds),
filter only when the payload `isinstance(..., list)` (any other shape
yields zero matches), and wrap any raised exception `e` into the tagged
error dict `\x7b"error": prefix + str(e), "success": False\x7d` with the
tool-specific prefix (the exception messages carried here follow the
CPython wording, with the offending type name abstracted for the attribute
errors).  `extra` holds the tool-specific echo fields placed before
`routes`. -/
def bus_filter_tool (err_tag : String) (extra : List (String × Json))
    (p : Json → Except String Bool) (all_routes : Json) : Json :=
  match py_contains_error all_routes with
  | .error e =>
    .obj [("error", .str (err_tag ++ e)), ("success", .bool false)]
  | .ok true => all_routes
  | .ok false =>
    match (match all_routes with
           | .arr routes => filter_routes p routes
           | _ => .ok []) with
    | .error e =>
      .obj [("error", .str (err_tag ++ e)), ("success", .bool false)]
    | .ok filtered_routes =>
      .obj (extra ++
        [("routes", .arr filtered_routes),
         ("total_found", .num filtered_routes.length),
         ("success", .bool true)])

/-- `search_bus_routes` (bus_tools.py lines 53-99) applied to the value the
inner `fetch_bus_routes(ctx, 0)` returned (the upstream payload on a
successful fetch, the tagged error dict otherwise). -/
def search_bus_routes (all_routes : Json) (query : String) : Json :=
  bus_filter_tool "Search failed: " [("query", .str query)]
    (route_matches_query (lowerStr query)) all_routes

/-- `get_routes_by_status` (lines 101-139). -/
def get_routes_by_status (all_routes : Json) (status : String) : Json :=
  bus_filter_tool "Status filter failed: " [("status", .str status)]
    (route_matches_status (lowerStr status)) all_routes

/-- `get_routes_by_time_range` (lines 141-185). -/
def get_routes_by_time_range (all_routes : Json) (start_time end_time : String) : Json :=
  bus_filter_tool "Time range filter failed: "
    [("start_time", .str start_time), ("end_time", .str end_time)]
    (route_in_time_range start_time end_time) all_routes

/- ================================================================== -/
/- Theorems -/

/-- A string with a non-empty left part of an append is non-empty; used to
show the tagged error messages are never the empty string. -/
theorem string_append_left_ne_empty (s t : String) (h : s.data ≠ []) : s ++ t ≠ "" := by
  intro hEq
  apply h
  have h2 : (s ++ t).data = ("" : String).data := congrArg String.data hEq
  rw [String.data_append] at h2
  exact (List.append_eq_nil.mp h2).1

/-- C3: for every client, URL, method, and outcome of the underlying HTTP
call (transport error, HTTP status error, unsupported method, or any
unexpected exception), `handle_http_request` returns a dict and never
raises: on success it returns data with `success = true`, and on any
failure it returns a non-empty error string with `success = false`. -/
theorem handle_http_request_never_raises (method : String) (outcome : HttpCallOutcome) :
    ((handle_http_request method outcome).success = true ∧
      (handle_http_request method outcome).error = none ∧
      ∃ d, outcome = HttpCallOutcome.success d ∧
        (handle_http_request method outcome).data = some d) ∨
    ((handle_http_request method outcome).success = false ∧
      ∃ e, (handle_http_request method outcome).error = some e ∧ e ≠ "") := by
  unfold handle_http_request
  by_cases hm : upperStr method = "GET" ∨ upperStr method = "POST"
  · rw [if_pos hm]
    cases outcome with
    | success d => exact Or.inl ⟨rfl, rfl, d, rfl, rfl⟩
    | httpError m =>
      exact Or.inr ⟨rfl, _, rfl, string_append_left_ne_empty _ _ (by decide)⟩
    | otherError m =>
      exact Or.inr ⟨rfl, _, rfl, string_append_left_ne_empty _ _ (by decide)⟩
  · rw [if_neg hm]
    exact Or.inr ⟨rfl, _, rfl, string_append_left_ne_empty _ _ (by decide)⟩

/-- C2: for every incoming chat request whose moderation verdict is flagged,
the chat endpoint returns the fixed redirect-to-campus-topics message with
`moderated = true`, `content_flagged = true` and `success = true`, and
`nexora_service.chat` — and with it the Orchestrator, its tools and its
model — is invoked zero times. -/
theorem flagged_request_short_circuits (has_api_key : Bool) (o : ModApiOutcome)
    (request : ChatRequestData) (facade_result : FacadeResult)
    (h : (moderate_content has_api_key o request.message).flagged = true) :
    enhanced_chat_with_agent has_api_key o request facade_result =
      ({ response := moderation_redirect_message
         agent_name := "Nexora Campus Copilot"
         intent := "moderation"
         agent_used := "Content Moderation"
         success := true
         error := none
         session_id := request.session_id
         moderated := true
         content_flagged := true
         moderation_reason := (moderate_content has_api_key o request.message).reason }, 0) := by
  unfold enhanced_chat_with_agent
  rw [if_pos h]
  unfold get_moderation_response_message
  rw [if_neg (by simp [h])]

/-- Witness for C2 at the spec scenario input: with no external moderation
key configured, the keyword fallback flags
`"I hate everyone and want to bomb the cafeteria"` (keywords `hate` and
`bomb`), and the endpoint short-circuits with the fixed redirect message and
zero orchestrator invocations. -/
theorem flagged_request_short_circuits_witness :
    (moderate_content false (.raises "x")
      "I hate everyone and want to bomb the cafeteria").flagged = true ∧
    enhanced_chat_with_agent false (.raises "x")
      { message := "I hate everyone and want to bomb the cafeteria"
        session_id := some "sess-1" }
      { response := "", agent_used := "", success := true } =
      ({ response := moderation_redirect_message
         agent_name := "Nexora Campus Copilot"
         intent := "moderation"
         agent_used := "Content Moderation"
         success := true
         error := none
         session_id := some "sess-1"
         moderated := true
         content_flagged := true
         moderation_reason := (moderate_content false (.raises "x")
           "I hate everyone and want to bomb the cafeteria").reason }, 0) := by
  refine ⟨by decide, ?_⟩
  exact flagged_request_short_circuits false (.raises "x")
    { message := "I hate everyone and want to bomb the cafeteria", session_id := some "sess-1" }
    { response := "", agent_used := "", success := true } (by decide)

/-- C5: `moderate_content` never raises (it is a total function of the
modelled outcome): without an API key, and on a non-200 status from the
external capability, it falls back to the static keyword scan, which flags
exactly when some category keyword occurs as a substring of the lowered
content; and when the moderation path itself raises, it returns the
fail-open verdict — `flagged = false` with the service-unavailable reason —
instead of an exception. -/
theorem moderate_content_fail_open (has_api_key : Bool) (o : ModApiOutcome)
    (content : String) :
    (has_api_key = false →
      moderate_content has_api_key o content = keyword_moderation content) ∧
    (∀ s f cs, o = ModApiOutcome.response s f cs → s ≠ 200 →
      moderate_content true o content = keyword_moderation content) ∧
    (∀ m, o = ModApiOutcome.raises m →
      moderate_content true o content = fail_open_result) ∧
    fail_open_result.flagged = false ∧
    fail_open_result.reason = some "Moderation service unavailable" ∧
    ((keyword_moderation content).flagged = true ↔
      ∃ ck ∈ flagged_keywords, ∃ kw ∈ ck.2,
        subStr (lowerStr kw) (lowerStr content) = true) := by
  refine ⟨?_, ?_, ?_, rfl, rfl, ?_⟩
  · intro hk
    subst hk
    rfl
  · intro s f cs ho hs
    subst ho
    simp [moderate_content, openai_moderation, hs]
  · intro m ho
    subst ho
    rfl
  · simp only [keyword_moderation, keyword_flagged_categories]
    simp [List.isEmpty_iff, List.filter_eq_nil_iff, List.any_eq_true]

/-- Witness for C5: with an API key configured and the external moderation
POST raising, `moderate_content` returns the fail-open verdict. -/
theorem moderate_content_fail_open_witness :
    moderate_content true (.raises "connection refused") "hello" = fail_open_result ∧
    fail_open_result.flagged = false :=
  ⟨(moderate_content_fail_open true (.raises "connection refused") "hello").2.2.1
      "connection refused" rfl,
   (moderate_content_fail_open true (.raises "connection refused") "hello").2.2.2.1⟩

/-- C10 (amended): for every successfully fetched upstream bus payload that
is a dict without an `"error"` key, the filtering tools `search_bus_routes`,
`get_routes_by_status` and `get_routes_by_time_range` do not report an
error: each returns a dict with `success = true`, `routes = []` and
`total_found = 0`, silently yielding zero matches regardless of the query,
status, or time range.  (Non-iterable payloads such as JSON numbers instead
raise a `TypeError` inside the tool, caught and reported as a tagged
failure — see the counterexample.) -/
theorem bus_filter_tools_on_dict_payload (kvs : List (String × Json))
    (query status t1 t2 : String)
    (h : kvs.any (fun kv => kv.1 == "error") = false) :
    search_bus_routes (Json.obj kvs) query =
      Json.obj [("query", .str query), ("routes", .arr []),
                ("total_found", .num 0), ("success", .bool true)] ∧
    get_routes_by_status (Json.obj kvs) status =
      Json.obj [("status", .str status), ("routes", .arr []),
                ("total_found", .num 0), ("success", .bool true)] ∧
    get_routes_by_time_range (Json.obj kvs) t1 t2 =
      Json.obj [("start_time", .str t1), ("end_time", .str t2), ("routes", .arr []),
                ("total_found", .num 0), ("success", .bool true)] := by
  refine ⟨?_, ?_, ?_⟩ <;>
    simp [search_bus_routes, get_routes_by_status, get_routes_by_time_range,
      bus_filter_tool, py_contains_error, h, filter_routes]

/-- Witness for C10: a dict payload `\x7b"message": "no routes"\x7d` without an
`"error"` key makes all three filtering tools return the empty successful
result. -/
theorem bus_filter_tools_on_dict_payload_witness :
    search_bus_routes (Json.obj [("message", .str "no routes")]) "City Center" =
      Json.obj [("query", .str "City Center"), ("routes", .arr []),
                ("total_found", .num 0), ("success", .bool true)] ∧
    get_routes_by_status (Json.obj [("message", .str "no routes")]) "On Time" =
      Json.obj [("status", .str "On Time"), ("routes", .arr []),
                ("total_found", .num 0), ("success", .bool true)] ∧
    get_routes_by_time_range (Json.obj [("message", .str "no routes")]) "07:00" "08:00" =
      Json.obj [("start_time", .str "07:00"), ("end_time", .str "08:00"), ("routes", .arr []),
                ("total_found", .num 0), ("success", .bool true)] :=
  bus_filter_tools_on_dict_payload [("message", .str "no routes")]
    "City Center" "On Time" "07:00" "08:00" rfl

/-- Counterexample to C10 as stated: the JSON number 42 is a successfully
fetched payload that is not a JSON list, yet `search_bus_routes` does
report an error on it — the membership test `"error" in all_routes` raises
`TypeError` on a non-iterable payload, which the tool catches and converts
into a `success = false` error dict rather than the claimed
`success = true` empty result. -/
theorem bus_filter_tools_numeric_payload_errors :
    search_bus_routes (Json.num 42) "City Center" =
      Json.obj [("error", .str "Search failed: argument of type \x27int\x27 is not iterable"),
                ("success", .bool false)] ∧
    get_routes_by_status (Json.num 42) "On Time" =
      Json.obj [("error", .str "Status filter failed: argument of type \x27int\x27 is not iterable"),
                ("success", .bool false)] ∧
    get_routes_by_time_range (Json.num 42) "07:00" "08:00" =
      Json.obj [("error", .str "Time range filter failed: argument of type \x27int\x27 is not iterable"),
                ("success", .bool false)] :=
  ⟨rfl, rfl, rfl⟩

/-- Every row surfaced by `search_knowledge` passed the threshold filter.
Shared between the retrieval-invariant and prompt-assembly theorems. -/
theorem mem_search_knowledge_thr (table_exists : Bool) (ranked : List SearchResult)
    (limit : Option Nat) (max_results : Nat) (thr : ℚ) (r : SearchResult)
    (hr : r ∈ search_knowledge table_exists ranked limit max_results thr) :
    thr ≤ relevance r := by
  unfold search_knowledge at hr
  by_cases ht : table_exists = false
  · rw [if_pos ht] at hr
    exact absurd hr (List.not_mem_nil r)
  · rw [if_neg ht] at hr
    have := List.of_mem_filter hr
    exact of_decide_eq_true this

/-- The output of `search_knowledge` is a sublist of the reranked input. -/
theorem search_knowledge_sublist (table_exists : Bool) (ranked : List SearchResult)
    (limit : Option Nat) (max_results : Nat) (thr : ℚ) :
    List.Sublist (search_knowledge table_exists ranked limit max_results thr) ranked := by
  unfold search_knowledge
  by_cases ht : table_exists = false
  · rw [if_pos ht]
    exact List.nil_sublist ranked
  · rw [if_neg ht]
    exact (List.filter_sublist _).trans (List.take_sublist _ _)

/-- C4 (amended): for every query, every row returned by `search_knowledge`
has `_relevance_score ≥ similarity_threshold`; the returned list preserves
the descending-score order of the reranked search and is truncated to the
result-count limit — the given limit when it is positive, and `max_results`
when the limit is absent or 0 (a falsy `limit` falls back to
`max_results`). -/
theorem search_knowledge_threshold_invariant (table_exists : Bool)
    (ranked : List SearchResult) (limit : Option Nat) (max_results : Nat) (thr : ℚ)
    (hsorted : List.Pairwise (fun a b => relevance b ≤ relevance a) ranked) :
    (∀ r ∈ search_knowledge table_exists ranked limit max_results thr,
      thr ≤ relevance r) ∧
    List.Pairwise (fun a b => relevance b ≤ relevance a)
      (search_knowledge table_exists ranked limit max_results thr) ∧
    (search_knowledge table_exists ranked limit max_results thr).length ≤
      search_limit_of limit max_results := by
  refine ⟨fun r hr => mem_search_knowledge_thr _ _ _ _ _ r hr,
    hsorted.sublist (search_knowledge_sublist _ _ _ _ _), ?_⟩
  unfold search_knowledge
  by_cases ht : table_exists = false
  · rw [if_pos ht]
    exact Nat.zero_le _
  · rw [if_neg ht]
    exact (List.length_filter_le _ _).trans (List.length_take_le _ _)

/-- Witness for C4: a two-row reranked result sorted descending, threshold
7/10, no explicit limit and `max_results = 10`. -/
theorem search_knowledge_threshold_invariant_witness :
    List.Pairwise (fun a b => relevance b ≤ relevance a)
      [{ text := "a", source_file := "f1", score := some ((9 : ℚ)/10) },
       { text := "b", source_file := "f2", score := some ((8 : ℚ)/10) }] ∧
    ((∀ r ∈ search_knowledge true
        [{ text := "a", source_file := "f1", score := some ((9 : ℚ)/10) },
         { text := "b", source_file := "f2", score := some ((8 : ℚ)/10) }]
        none 10 ((7 : ℚ)/10), (7 : ℚ)/10 ≤ relevance r) ∧
      List.Pairwise (fun a b => relevance b ≤ relevance a)
        (search_knowledge true
          [{ text := "a", source_file := "f1", score := some ((9 : ℚ)/10) },
           { text := "b", source_file := "f2", score := some ((8 : ℚ)/10) }]
          none 10 ((7 : ℚ)/10)) ∧
      (search_knowledge true
        [{ text := "a", source_file := "f1", score := some ((9 : ℚ)/10) },
         { text := "b", source_file := "f2", score := some ((8 : ℚ)/10) }]
        none 10 ((7 : ℚ)/10)).length ≤ search_limit_of none 10) := by
  refine ⟨?_, ?_⟩
  · simp only [List.pairwise_cons, List.mem_cons, List.not_mem_nil, or_false]
    norm_num [relevance]
  · refine search_knowledge_threshold_invariant true _ none 10 ((7 : ℚ)/10) ?_
    simp only [List.pairwise_cons, List.mem_cons, List.not_mem_nil, or_false]
    norm_num [relevance]

/-- Counterexample to C4 as stated: with an explicit `limit` of 0 the claim
says the result is truncated to 0 rows, but `limit or self.max_results`
treats 0 as falsy, so the search runs with `max_results` and here returns
one row. -/
theorem search_knowledge_zero_limit_counterexample :
    (search_knowledge true [{ text := "t", source_file := "f", score := some 1 }]
      (some 0) 5 0).length = 1 := by
  norm_num [search_knowledge, search_limit_of, relevance, List.filter]

/-- C9: for every message handled by the Orchestrator, the enhanced prompt
is the formatted datetime block, then the knowledge-context block only if
the retrieved context is non-empty, then the literal user query last; when
the knowledge base is unloaded or the thresholded search yields nothing,
the knowledge block is entirely absent; and every result included in the
knowledge block is tagged with a source header carrying its relevance
score. -/
theorem orchestrator_prompt_structure (kb_loaded : Bool) (ranked : List SearchResult)
    (max_results : Nat) (thr : ℚ) (ctx : DatetimeContext) (message : String) :
    (get_rag_context kb_loaded ranked max_results thr = "" →
      handle_query_prompt kb_loaded ranked max_results thr ctx message =
        format_datetime_context_for_prompt ctx ++ "\n\n" ++
          ("**User Query:** " ++ message)) ∧
    (get_rag_context kb_loaded ranked max_results thr ≠ "" →
      handle_query_prompt kb_loaded ranked max_results thr ctx message =
        format_datetime_context_for_prompt ctx ++ "\n\n" ++
          get_rag_context kb_loaded ranked max_results thr ++ "\n\n" ++
          ("**User Query:** " ++ message)) ∧
    (kb_loaded = false → get_rag_context kb_loaded ranked max_results thr = "") ∧
    (search_knowledge kb_loaded ranked (some 5) max_results thr = [] →
      get_rag_context kb_loaded ranked max_results thr = "") ∧
    (∀ p ∈ (search_knowledge kb_loaded ranked (some 5) max_results thr).enum,
      rag_source_header (p.1 + 1) p.2 ∈
        rag_context_parts thr (search_knowledge kb_loaded ranked (some 5) max_results thr)) := by
  refine ⟨?_, ?_, ?_, ?_, ?_⟩
  · intro h
    unfold handle_query_prompt orchestrator_enhanced_message
    rw [if_pos h]
    simp [String.intercalate, String.intercalate.go, String.append_assoc]
  · intro h
    unfold handle_query_prompt orchestrator_enhanced_message
    rw [if_neg h]
    simp [String.intercalate, String.intercalate.go, String.append_assoc]
  · intro h
    unfold get_rag_context
    rw [if_pos h]
  · intro h
    unfold get_rag_context
    by_cases hk : kb_loaded = false
    · rw [if_pos hk]
    · rw [if_neg hk, if_pos h]
  · intro p hp
    have hmem : p.2 ∈ search_knowledge kb_loaded ranked (some 5) max_results thr := by
      have := List.mem_map_of_mem Prod.snd hp
      rwa [List.enum_map_snd] at this
    have hthr : thr ≤ relevance p.2 :=
      mem_search_knowledge_thr _ _ _ _ _ _ hmem
    apply List.mem_cons_of_mem
    apply List.mem_flatMap.mpr
    refine ⟨(p.1 + 1, p.2), List.mem_map_of_mem _ hp, ?_⟩
    unfold rag_entry_parts
    rw [if_pos hthr]
    exact List.mem_cons_self _ _

/-- Witness for C9 at the spec scenario: with the knowledge base unloaded
(the bus-query scenario), the retrieved context is empty and the enhanced
prompt is exactly the datetime block followed by the tagged user query —
no knowledge block. -/
theorem orchestrator_prompt_structure_witness :
    get_rag_context false [] 10 ((7 : ℚ)/10) = "" ∧
    handle_query_prompt false [] 10 ((7 : ℚ)/10)
      { timestamp := "2025-01-15T17:00:00"
        formatted_readable := "Wednesday, January 15, 2025 at 05:00 PM"
        time_12h := "05:00:00 PM"
        time := "17:00:00"
        tz := "UTC"
        day_of_year := 15
        year := 2025
        week_number := 3
        is_weekend := false
        formatted_short := "01/15/2025"
        unix_timestamp := 1736960400 }
      "When is the next bus to City Center?" =
      format_datetime_context_for_prompt
        { timestamp := "2025-01-15T17:00:00"
          formatted_readable := "Wednesday, January 15, 2025 at 05:00 PM"
          time_12h := "05:00:00 PM"
          time := "17:00:00"
          tz := "UTC"
          day_of_year := 15
          year := 2025
          week_number := 3
          is_weekend := false
          formatted_short := "01/15/2025"
          unix_timestamp := 1736960400 } ++ "\n\n" ++
        ("**User Query:** " ++ "When is the next bus to City Center?") := by
  have T := orchestrator_prompt_structure false [] 10 ((7 : ℚ)/10)
    { timestamp := "2025-01-15T17:00:00"
      formatted_readable := "Wednesday, January 15, 2025 at 05:00 PM"
      time_12h := "05:00:00 PM"
      time := "17:00:00"
      tz := "UTC"
      day_of_year := 15
      year := 2025
      week_number := 3
      is_weekend := false
      formatted_short := "01/15/2025"
      unix_timestamp := 1736960400 }
    "When is the next bus to City Center?"
  have h := T.2.2.1 rfl
  exact ⟨h, T.1 h⟩

/-- Unfolding step for `chunkLens`: one full-or-final window followed by the
windows of the remaining tokens. -/
theorem chunkLens_cons (cs n : Nat) (hcs : cs ≠ 0) (hn : n ≠ 0) :
    chunkLens cs n = min cs n :: chunkLens cs (n - cs) := by
  unfold chunkLens
  by_cases hle : n ≤ cs
  · have h1 : (n + cs - 1) / cs = 1 := by
      apply Nat.div_eq_of_lt_le <;> omega
    have h2 : (n - cs + cs - 1) / cs = 0 := Nat.div_eq_of_lt (by omega)
    rw [h1, h2]
    have hr1 : List.range 1 = [0] := rfl
    rw [hr1]
    simp
  · have h1 : (n + cs - 1) / cs = (n - cs + cs - 1) / cs + 1 := by
      have harg : n + cs - 1 = (n - cs + cs - 1) + cs := by omega
      rw [harg, Nat.add_div_right _ (Nat.pos_of_ne_zero hcs)]
    rw [h1, List.range_succ_eq_map]
    simp only [List.map_cons, List.map_map]
    congr 1
    · omega
    · apply List.map_congr_left
      intro i _
      have harg : n - (i + 1) * cs = n - cs - i * cs := by
        rw [Nat.succ_mul]
        omega
      simp [Function.comp, Nat.succ_mul]
      omega

/-- `chunkTokens` on an empty token list (with a positive window size)
produces no chunks. -/
theorem chunkTokens_nil (cs : Nat) (hcs : cs ≠ 0) : chunkTokens cs [] = [] := by
  rw [chunkTokens, if_neg hcs]
  rfl

/-- Concatenating the windows of `chunkTokens` in order reconstructs the
input: the windows are consecutive and non-overlapping. -/
theorem chunkTokens_flatten (cs : Nat) (hcs : cs ≠ 0) (ts : List Nat) :
    (chunkTokens cs ts).flatten = ts := by
  rw [chunkTokens, if_neg hcs]
  by_cases h : ts = []
  · simp [h]
  · rw [dif_neg h]
    rw [List.flatten_cons, chunkTokens_flatten cs hcs (ts.drop cs)]
    exact List.take_append_drop cs ts
termination_by ts.length
decreasing_by
  simp only [List.length_drop]
  have h0 : ts.length ≠ 0 := fun hz => h (List.eq_nil_of_length_eq_zero hz)
  omega

/-- The window lengths of `chunkTokens` are exactly `chunkLens` of the token
count. -/
theorem chunkTokens_map_length (cs : Nat) (hcs : cs ≠ 0) (ts : List Nat) :
    (chunkTokens cs ts).map List.length = chunkLens cs ts.length := by
  rw [chunkTokens, if_neg hcs]
  by_cases h : ts = []
  · subst h
    have hz : chunkLens cs 0 = [] := by
      unfold chunkLens
      rw [Nat.div_eq_of_lt (by omega)]
      rfl
    simp [hz]
  · rw [dif_neg h]
    have h0 : ts.length ≠ 0 := fun hz => h (List.eq_nil_of_length_eq_zero hz)
    rw [List.map_cons, chunkTokens_map_length cs hcs (ts.drop cs)]
    rw [chunkLens_cons cs ts.length hcs h0]
    simp [List.length_take, List.length_drop, Nat.min_comm]
termination_by ts.length
decreasing_by
  simp only [List.length_drop]
  have h0 : ts.length ≠ 0 := fun hz => h (List.eq_nil_of_length_eq_zero hz)
  omega

/-- Every window holds at most `cs` tokens. -/
theorem chunkTokens_le (cs : Nat) (hcs : cs ≠ 0) (ts : List Nat) :
    ∀ c ∈ chunkTokens cs ts, c.length ≤ cs := by
  rw [chunkTokens, if_neg hcs]
  by_cases h : ts = []
  · simp [h]
  · rw [dif_neg h]
    intro c hc
    rcases List.mem_cons.mp hc with hhd | htl
    · subst hhd
      exact le_trans (Nat.le_of_eq (List.length_take _ _)) (Nat.min_le_left _ _)
    · exact chunkTokens_le cs hcs (ts.drop cs) c htl
termination_by ts.length
decreasing_by
  simp only [List.length_drop]
  have h0 : ts.length ≠ 0 := fun hz => h (List.eq_nil_of_length_eq_zero hz)
  omega

/-- `chunkTokens` of a non-empty list is non-empty. -/
theorem chunkTokens_ne_nil (cs : Nat) (hcs : cs ≠ 0) (ts : List Nat) (h : ts ≠ []) :
    chunkTokens cs ts ≠ [] := by
  rw [chunkTokens, if_neg hcs, dif_neg h]
  exact List.cons_ne_nil _ _

/-- Every window except possibly the last holds exactly `cs` tokens. -/
theorem chunkTokens_dropLast_full (cs : Nat) (hcs : cs ≠ 0) (ts : List Nat) :
    ∀ c ∈ (chunkTokens cs ts).dropLast, c.length = cs := by
  rw [chunkTokens, if_neg hcs]
  by_cases h : ts = []
  · simp [h]
  · rw [dif_neg h]
    by_cases hrest : ts.drop cs = []
    · rw [chunkTokens, if_neg hcs, dif_pos hrest]
      simp
    · have hne := chunkTokens_ne_nil cs hcs (ts.drop cs) hrest
      rw [List.dropLast_cons_of_ne_nil hne]
      intro c hc
      rcases List.mem_cons.mp hc with hhd | htl
      · subst hhd
        have hlen : cs < ts.length := by
          have := List.length_drop cs ts
          have h0 : (ts.drop cs).length ≠ 0 :=
            fun hz => hrest (List.eq_nil_of_length_eq_zero hz)
          omega
        rw [List.length_take]
        omega
      · exact chunkTokens_dropLast_full cs hcs (ts.drop cs) c htl
termination_by ts.length
decreasing_by
  simp only [List.length_drop]
  have h0 : ts.length ≠ 0 := fun hz => h (List.eq_nil_of_length_eq_zero hz)
  omega

/-- C6: `chunk_text` splits the token encoding into consecutive
non-overlapping windows of at most `chunk_size` tokens — their in-order
concatenation is the original token list, every window except possibly the
final one holds exactly `chunk_size` tokens — producing
`ceil(n / chunk_size)` chunks for an `n`-token text and zero chunks for an
empty encoding, with window sizes given in closed form by `chunkLens`; and
every document stored by the knowledge-base loader for the file carries
`total_chunks` equal to that chunk count. -/
theorem chunk_text_windows (cs : Nat) (hcs : 0 < cs) (ts : List Nat) :
    (chunkTokens cs ts).flatten = ts ∧
    (chunkTokens cs ts).map List.length = chunkLens cs ts.length ∧
    (chunkTokens cs ts).length = (ts.length + cs - 1) / cs ∧
    (ts = [] → chunkTokens cs ts = []) ∧
    (∀ c ∈ (chunkTokens cs ts).dropLast, c.length = cs) ∧
    (∀ c ∈ chunkTokens cs ts, c.length ≤ cs) ∧
    (∀ enc dec text, enc text = ts →
      (chunk_text cs enc dec text).length = (ts.length + cs - 1) / cs) ∧
    (∀ dec stem name path fsz,
      ∀ d ∈ process_markdown_file cs dec stem name path fsz ts,
        d.total_chunks = (ts.length + cs - 1) / cs) := by
  have hcs' : cs ≠ 0 := Nat.pos_iff_ne_zero.mp hcs
  have hlen : (chunkTokens cs ts).length = (ts.length + cs - 1) / cs := by
    have := congrArg List.length (chunkTokens_map_length cs hcs' ts)
    simpa [chunkLens] using this
  refine ⟨chunkTokens_flatten cs hcs' ts, chunkTokens_map_length cs hcs' ts, hlen,
    fun h => by rw [h]; exact chunkTokens_nil cs hcs',
    chunkTokens_dropLast_full cs hcs' ts, chunkTokens_le cs hcs' ts, ?_, ?_⟩
  · intro enc dec text henc
    unfold chunk_text
    rw [henc, List.length_map, hlen]
  · intro dec stem name path fsz d hd
    unfold process_markdown_file at hd
    rcases List.mem_map.mp hd with ⟨p, _, hp⟩
    rw [← hp]
    simp [List.length_map, hlen]

/-- Witness for C6 at the spec scenario: a 20,000-token Markdown file with
`chunk_size = 8192` produces exactly 3 chunks of 8192, 8192 and 3616
tokens, and every stored document for the file has `total_chunks = 3`. -/
theorem chunk_text_windows_witness :
    (chunkTokens 8192 (List.replicate 20000 0)).map List.length = [8192, 8192, 3616] ∧
    (chunkTokens 8192 (List.replicate 20000 0)).length = 3 ∧
    (∀ d ∈ process_markdown_file 8192 (fun _ => "chunk") "campus" "campus.md"
        "knowledge_base/campus.md" 100000 (List.replicate 20000 0),
      d.total_chunks = 3) := by
  have T := chunk_text_windows 8192 (by norm_num) (List.replicate 20000 0)
  have hmap := T.2.1
  have hlen := T.2.2.1
  have htot := T.2.2.2.2.2.2.2
  rw [List.length_replicate] at hmap hlen
  have hLens : chunkLens 8192 20000 = [8192, 8192, 3616] := by decide
  refine ⟨by rw [hmap, hLens], by rw [hlen], ?_⟩
  intro d hd
  have := htot (fun _ => "chunk") "campus" "campus.md" "knowledge_base/campus.md" 100000 d hd
  rw [List.length_replicate] at this
  exact this

/-- Reversing the first `k` of a reversed list is the suffix of the last
`k` elements: `ORDER BY created_at DESC LIMIT k` followed by a reversal
yields the most recent `k` rows in chronological order. -/
theorem reverse_take_reverse_eq_drop {α : Type} (l : List α) (k : Nat) :
    (l.reverse.take k).reverse = l.drop (l.length - k) := by
  rw [← List.rtake_eq_reverse_take_reverse]
  rfl

/-- C7: for every session and limit, `get_conversation_history` returns at
most `limit` messages — exactly the most recently created rows of the
conversation of the session, reversed into chronological oldest-first order
(the suffix of the chronological message list) — and returns the empty
list for an unknown session. -/
theorem conversation_history_recent_suffix (db : ConvDB) (session_id : String)
    (limit : Nat) :
    (find_conversation db session_id = none →
      get_conversation_history db session_id limit = []) ∧
    (get_conversation_history db session_id limit).length ≤ limit ∧
    (∀ conv, find_conversation db session_id = some conv →
      get_conversation_history db session_id limit =
        ((messagesOf db conv.id).drop ((messagesOf db conv.id).length - limit)).map
          to_model_message) := by
  refine ⟨?_, ?_, ?_⟩
  · intro h
    unfold get_conversation_history
    rw [h]
  · unfold get_conversation_history
    cases hf : find_conversation db session_id with
    | none => simp
    | some conv =>
      simp only [List.length_map, List.length_reverse]
      exact (List.length_take_le _ _)
  · intro conv hf
    unfold get_conversation_history
    rw [hf]
    dsimp only
    rw [reverse_take_reverse_eq_drop]

/-- Witness for C7 at the spec scenario: with 25 stored turns and
`limit = 20`, the history is exactly the most recent 20 turns (turns 6
through 25) in oldest-first order, and its length is 20. -/
theorem conversation_history_recent_suffix_witness :
    find_conversation c7_witness_db "s" = some { id := 0, session_id := "s" } ∧
    get_conversation_history c7_witness_db "s" 20 =
      ((messagesOf c7_witness_db 0).drop ((messagesOf c7_witness_db 0).length - 20)).map
        to_model_message ∧
    (get_conversation_history c7_witness_db "s" 20).length = 20 ∧
    ((messagesOf c7_witness_db 0).drop ((messagesOf c7_witness_db 0).length - 20)).map
        to_model_message =
      (List.range 20).map (fun i => ModelMsg.request ("m" ++ toString (i + 6))) := by
  refine ⟨by decide, ?_, by decide, by decide⟩
  exact (conversation_history_recent_suffix c7_witness_db "s" 20).2.2
    { id := 0, session_id := "s" } (by decide)

/-- The metadata update never changes the conversation id. -/
theorem apply_metadata_update_id (n : Nat) (fc : Option String) (c : DbConversation) :
    (apply_metadata_update n fc c).id = c.id := by
  unfold apply_metadata_update
  cases fc with
  | none => rfl
  | some v =>
    dsimp only
    split <;> rfl

/-- The metadata update sets `total_messages` to the recomputed count. -/
theorem apply_metadata_update_total (n : Nat) (fc : Option String) (c : DbConversation) :
    (apply_metadata_update n fc c).total_messages = n := by
  unfold apply_metadata_update
  cases fc with
  | none => rfl
  | some v =>
    dsimp only
    split <;> rfl

/-- The title transition of the metadata update is `title_step`. -/
theorem apply_metadata_update_title_user (n : Nat) (fc : String) (c : DbConversation) :
    (apply_metadata_update n (some fc) c).title = title_step c.title (.user fc) := by
  unfold apply_metadata_update title_step
  dsimp only
  split <;> simp_all

/-- An assistant save leaves the title unchanged. -/
theorem apply_metadata_update_title_none (n : Nat) (c : DbConversation) :
    (apply_metadata_update n none c).title = c.title := rfl

/-- Looking up a conversation by id after updating exactly the rows with
that id applies the row update to the lookup result. -/
theorem find_update_by_id (l : List DbConversation) (cid : Nat)
    (F : DbConversation → DbConversation) (hF : ∀ c, (F c).id = c.id) :
    (l.map (fun c => if c.id == cid then F c else c)).find? (fun c => c.id == cid) =
      (l.find? (fun c => c.id == cid)).map F := by
  induction l with
  | nil => rfl
  | cons a t ih =>
    simp only [List.map_cons]
    by_cases h : (a.id == cid) = true
    · have hFa : ((F a).id == cid) = true := by rw [hF]; exact h
      rw [if_pos h]
      simp only [List.find?_cons, hFa, h]
      rfl
    · have hfalse : (a.id == cid) = false := by
        cases hb : (a.id == cid) with
        | false => rfl
        | true => exact absurd hb h
      rw [if_neg h]
      simp only [List.find?_cons, hfalse]
      exact ih

/-- Changing only the message table does not affect conversation lookup. -/
theorem conversation_by_id_msgs (db : ConvDB) (ms : List DbMessage) (cid : Nat) :
    conversation_by_id { db with msgs := ms } cid = conversation_by_id db cid := rfl

/-- Appending a message of the conversation extends its message list. -/
theorem messagesOf_append (db : ConvDB) (m : DbMessage) (cid : Nat)
    (h : m.conversation_id = cid) :
    messagesOf { db with msgs := db.msgs ++ [m] } cid = messagesOf db cid ++ [m] := by
  simp [messagesOf, List.filter_append, h]

/-- When the conversation exists, the metadata update succeeds and performs
the per-row update on the conversation table. -/
theorem update_metadata_ok (db : ConvDB) (cid : Nat) (c : DbConversation)
    (fc : Option String) (hc : conversation_by_id db cid = some c) :
    update_conversation_metadata db cid fc =
      .ok { db with convs := db.convs.map (fun c0 =>
        if c0.id == cid then
          apply_metadata_update (messagesOf db cid).length fc c0
        else c0) } := by
  unfold update_conversation_metadata
  rw [hc]

/-- Effect of one successful save on the conversation row: the message list
grows by one, `total_messages` is recomputed to the new count (the pending
insert being visible to the count query), and the title moves by
`title_step`. -/
theorem run_save_ok (db : ConvDB) (cid : Nat) (c : DbConversation) (op : SaveOp)
    (hc : conversation_by_id db cid = some c) :
    ∃ db' c', run_save db cid op = .ok db' ∧
      conversation_by_id db' cid = some c' ∧
      (messagesOf db' cid).length = (messagesOf db cid).length + 1 ∧
      c'.total_messages = (messagesOf db' cid).length ∧
      c'.title = title_step c.title op := by
  cases op with
  | user content =>
    have hc1 : conversation_by_id { db with msgs := db.msgs ++
        [{ conversation_id := cid, content := content, role := "user" }] } cid = some c := hc
    have hupd := update_metadata_ok _ cid c (some content) hc1
    refine ⟨_, apply_metadata_update
      (messagesOf { db with msgs := db.msgs ++
        [{ conversation_id := cid, content := content, role := "user" }] } cid).length
      (some content) c, hupd, ?_, ?_, ?_, ?_⟩
    · have hfind := find_update_by_id db.convs cid
        (apply_metadata_update
          (messagesOf { db with msgs := db.msgs ++
            [{ conversation_id := cid, content := content, role := "user" }] } cid).length
          (some content))
        (fun c0 => apply_metadata_update_id _ _ c0)
      unfold conversation_by_id at hc
      rw [hc] at hfind
      exact hfind
    · show (messagesOf { db with msgs := db.msgs ++
        [{ conversation_id := cid, content := content, role := "user" }] } cid).length =
        (messagesOf db cid).length + 1
      rw [messagesOf_append _ _ _ rfl, List.length_append]
      rfl
    · rw [apply_metadata_update_total]
      rfl
    · exact apply_metadata_update_title_user _ _ _
  | assistant content a m =>
    have hc1 : conversation_by_id { db with msgs := db.msgs ++
        [{ conversation_id := cid, content := content, role := "assistant"
           agent_name := a.agent_name, agent_used := a.agent_used, intent := a.intent
           success := some (a.success.getD true), usage_data := m.usage_data
           response_time_ms := m.response_time_ms
           error_message := m.error_message }] } cid = some c := hc
    have hupd := update_metadata_ok _ cid c none hc1
    refine ⟨_, apply_metadata_update
      (messagesOf { db with msgs := db.msgs ++
        [{ conversation_id := cid, content := content, role := "assistant"
           agent_name := a.agent_name, agent_used := a.agent_used, intent := a.intent
           success := some (a.success.getD true), usage_data := m.usage_data
           response_time_ms := m.response_time_ms
           error_message := m.error_message }] } cid).length
      none c, hupd, ?_, ?_, ?_, ?_⟩
    · have hfind := find_update_by_id db.convs cid
        (apply_metadata_update
          (messagesOf { db with msgs := db.msgs ++
            [{ conversation_id := cid, content := content, role := "assistant"
               agent_name := a.agent_name, agent_used := a.agent_used, intent := a.intent
               success := some (a.success.getD true), usage_data := m.usage_data
               response_time_ms := m.response_time_ms
               error_message := m.error_message }] } cid).length
          none)
        (fun c0 => apply_metadata_update_id _ _ c0)
      unfold conversation_by_id at hc
      rw [hc] at hfind
      exact hfind
    · show (messagesOf { db with msgs := db.msgs ++
        [{ conversation_id := cid, content := content, role := "assistant"
           agent_name := a.agent_name, agent_used := a.agent_used, intent := a.intent
           success := some (a.success.getD true), usage_data := m.usage_data
           response_time_ms := m.response_time_ms
           error_message := m.error_message }] } cid).length =
        (messagesOf db cid).length + 1
      rw [messagesOf_append _ _ _ rfl, List.length_append]
      rfl
    · rw [apply_metadata_update_total]
      rfl
    · exact apply_metadata_update_title_none _ _

/-- Unfolding equations for the title transition. -/
theorem title_fold_cons (t : Option String) (op : SaveOp) (rest : List SaveOp) :
    title_fold t (op :: rest) = title_fold (title_step t op) rest := rfl

/-- `title_step` on a user save. -/
theorem title_step_user (t : Option String) (fc : String) :
    title_step t (.user fc) =
      if t.getD "" = "" ∧ fc ≠ "" then some (truncate_title fc) else t := rfl

/-- `title_step` on an assistant save. -/
theorem title_step_assistant (t : Option String) (c : String) (a : AgentData)
    (m : MsgMetadata) : title_step t (.assistant c a m) = t := rfl

/-- Unfolding equation for the titling-message search on a user save. -/
theorem first_titling_cons_user (fc : String) (rest : List SaveOp) :
    first_titling_user_content (.user fc :: rest) =
      if fc ≠ "" ∧ truncate_title fc ≠ "" then some fc
      else first_titling_user_content rest := rfl

/-- Unfolding equation for the titling-message search on an assistant save. -/
theorem first_titling_cons_assistant (c : String) (a : AgentData) (m : MsgMetadata)
    (rest : List SaveOp) :
    first_titling_user_content (.assistant c a m :: rest) =
      first_titling_user_content rest := rfl

/-- A non-empty title is frozen: no later save overwrites it. -/
theorem title_fold_frozen (ops : List SaveOp) : ∀ t0 : String, t0 ≠ "" →
    title_fold (some t0) ops = some t0 := by
  induction ops with
  | nil => intro t0 _; rfl
  | cons op rest ih =>
    intro t0 h
    cases op with
    | assistant c a m => exact ih t0 h
    | user fc =>
      rw [title_fold_cons, title_step_user]
      have hc : ¬((some t0).getD "" = "" ∧ fc ≠ "") := fun hx => h hx.1
      rw [if_neg hc]
      exact ih t0 h

/-- Starting from an unset (or empty, hence overwritable) title, the final
title is the truncation of the first user save whose content is non-empty
and truncates to a non-empty string; if there is no such save the title
stays unset or empty. -/
theorem title_fold_spec (ops : List SaveOp) : ∀ t : Option String,
    t = none ∨ t = some "" →
    (∀ c0, first_titling_user_content ops = some c0 →
      title_fold t ops = some (truncate_title c0)) ∧
    (first_titling_user_content ops = none →
      title_fold t ops = none ∨ title_fold t ops = some "") := by
  induction ops with
  | nil =>
    intro t ht
    refine ⟨fun c0 h0 => Option.noConfusion h0, fun _ => ?_⟩
    exact ht
  | cons op rest ih =>
    intro t ht
    have htd : t.getD "" = "" := by
      rcases ht with h | h <;> rw [h] <;> rfl
    cases op with
    | assistant c a m =>
      rw [title_fold_cons, first_titling_cons_assistant, title_step_assistant]
      exact ih t ht
    | user fc =>
      rw [title_fold_cons, first_titling_cons_user, title_step_user]
      by_cases hfc : fc = ""
      · have hc1 : ¬(fc ≠ "" ∧ truncate_title fc ≠ "") := fun hx => hx.1 hfc
        have hc2 : ¬(t.getD "" = "" ∧ fc ≠ "") := fun hx => hx.2 hfc
        rw [if_neg hc1, if_neg hc2]
        exact ih t ht
      · have hc2 : t.getD "" = "" ∧ fc ≠ "" := ⟨htd, hfc⟩
        rw [if_pos hc2]
        by_cases htr : truncate_title fc = ""
        · have hc1 : ¬(fc ≠ "" ∧ truncate_title fc ≠ "") := fun hx => hx.2 htr
          rw [if_neg hc1]
          exact ih (some (truncate_title fc)) (Or.inr (by rw [htr]))
        · have hc1 : fc ≠ "" ∧ truncate_title fc ≠ "" := ⟨hfc, htr⟩
          rw [if_pos hc1]
          refine ⟨fun c0 h0 => ?_, fun h0 => Option.noConfusion h0⟩
          have hfc0 : fc = c0 := Option.some.inj h0
          subst hfc0
          exact title_fold_frozen rest _ htr

/-- Running a sequence of saves against an existing conversation succeeds,
grows the message list by one row per save, recomputes `total_messages` to
the row count after every save, and folds the title by `title_step`. -/
theorem run_saves_ok (cid : Nat) (ops : List SaveOp) :
    ∀ (db : ConvDB) (c : DbConversation), conversation_by_id db cid = some c →
    ∃ db' c', run_saves db cid ops = .ok db' ∧
      conversation_by_id db' cid = some c' ∧
      (messagesOf db' cid).length = (messagesOf db cid).length + ops.length ∧
      (ops = [] → c' = c ∧ db' = db) ∧
      (ops ≠ [] → c'.total_messages = (messagesOf db' cid).length) ∧
      c'.title = title_fold c.title ops := by
  induction ops with
  | nil =>
    intro db c hc
    exact ⟨db, c, rfl, hc, by simp, fun _ => ⟨rfl, rfl⟩,
      fun h => absurd rfl h, rfl⟩
  | cons op rest ih =>
    intro db c hc
    obtain ⟨db1, c1, hrun1, hc1, hlen1, htot1, htitle1⟩ := run_save_ok db cid c op hc
    obtain ⟨db', c', hrun, hc', hlen, hnil, htot, htitle⟩ := ih db1 c1 hc1
    refine ⟨db', c', ?_, hc', ?_, ?_, ?_, ?_⟩
    · unfold run_saves
      rw [hrun1]
      exact hrun
    · rw [hlen, hlen1, List.length_cons]
      omega
    · intro h
      exact absurd h (List.cons_ne_nil op rest)
    · intro _
      by_cases hr : rest = []
      · subst hr
        have h2 : (Except.ok db1 : Except String ConvDB) = .ok db' := hrun
        injection h2 with h3
        rw [(hnil rfl).1, ← h3, htot1]
      · exact htot hr
    · rw [htitle, htitle1]
      rfl

/-- C8 (amended): after any sequence of N successful save calls against one
freshly created conversation, its `total_messages` equals N
(the count of its associated messages); its title equals the truncated
content — first 50 characters, whitespace-stripped, with an ellipsis
appended when the content exceeds 50 characters — of the first *user*
message whose stripped content is non-empty, set once and never overwritten
by later messages (assistant saves pass no content to the title logic); and
with no such user message the title stays unset or empty. -/
theorem conversation_accounting (session_id : String) (user_id : Option String)
    (ops : List SaveOp) (db' : ConvDB)
    (hrun : run_saves (get_or_create_conversation ⟨[], []⟩ session_id user_id).1
      (get_or_create_conversation ⟨[], []⟩ session_id user_id).2.id ops = .ok db') :
    ∃ c', conversation_by_id db'
        (get_or_create_conversation ⟨[], []⟩ session_id user_id).2.id = some c' ∧
      (messagesOf db'
        (get_or_create_conversation ⟨[], []⟩ session_id user_id).2.id).length = ops.length ∧
      c'.total_messages = ops.length ∧
      (∀ c0, first_titling_user_content ops = some c0 →
        c'.title = some (truncate_title c0)) ∧
      (first_titling_user_content ops = none →
        c'.title = none ∨ c'.title = some "") := by
  obtain ⟨db2, c', hrun2, hc', hlen, hnil, htot, htitle⟩ :=
    run_saves_ok (get_or_create_conversation ⟨[], []⟩ session_id user_id).2.id ops
      (get_or_create_conversation ⟨[], []⟩ session_id user_id).1
      (get_or_create_conversation ⟨[], []⟩ session_id user_id).2 rfl
  rw [hrun2] at hrun
  injection hrun with hdb
  subst hdb
  have hmsgs0 : (messagesOf (get_or_create_conversation ⟨[], []⟩ session_id user_id).1
      (get_or_create_conversation ⟨[], []⟩ session_id user_id).2.id).length = 0 := rfl
  rw [hmsgs0] at hlen
  have htitle0 : c'.title = title_fold none ops := htitle
  have hspec := title_fold_spec ops none (Or.inl rfl)
  refine ⟨c', hc', by omega, ?_, ?_, ?_⟩
  · by_cases h : ops = []
    · subst h
      have := (hnil rfl).1
      rw [this]
      rfl
    · rw [htot h]
      omega
  · intro c0 h0
    rw [htitle0]
    exact hspec.1 c0 h0
  · intro h0
    rw [htitle0]
    exact hspec.2 h0

set_option maxRecDepth 4000 in
/-- Witness for C8: three saves (assistant, then two user turns) yield
`total_messages = 3` and the title frozen to the stripped truncation of the
first non-empty user message. -/
theorem conversation_accounting_witness :
    first_titling_user_content c8_witness_ops = some "  hi there  " ∧
    truncate_title "  hi there  " = "hi there" ∧
    (∃ c', conversation_by_id c8_witness_db 0 = some c' ∧
      (messagesOf c8_witness_db 0).length = 3 ∧
      c'.total_messages = 3 ∧
      c'.title = some (truncate_title "  hi there  ")) := by
  refine ⟨by decide, by decide, ?_⟩
  obtain ⟨c', h1, h2, h3, h4, h5⟩ :=
    conversation_accounting "s" none c8_witness_ops c8_witness_db (by rfl)
  exact ⟨c', h1, h2, h3, h4 "  hi there  " (by decide)⟩

set_option maxRecDepth 4000 in
/-- Counterexample to C8 as stated: with the sequence assistant `"A"` then
user `"  hi  "`, the final title is `"hi"` — the stripped truncation of the
*second* stored message (the first user message), not of the first message
`"A"`, and not the raw first-50-characters of the user message either
(stripping removed its whitespace). -/
theorem conversation_title_not_first_message :
    (match run_saves (get_or_create_conversation ⟨[], []⟩ "s" none).1 0
        [SaveOp.assistant "A" {} {}, SaveOp.user "  hi  "] with
      | .ok dbr => (conversation_by_id dbr 0).map (fun c => c.title)
      | .error _ => none) = some (some "hi") ∧
    some (some "hi") ≠ some (some (truncate_title "A")) ∧
    ("hi" : String) ≠ "  hi  ".take 50 := by
  refine ⟨rfl, by decide, by decide⟩

set_option maxRecDepth 4000 in
/-- C1 (code bug): on a clean message the facade does read the history
before persisting the user turn (the trace below), but the assistant save
that the claim and the spec require never happens — the call the facade makes to
`save_assistant_message` passes keyword arguments the method does not
accept, so Python raises `TypeError` before the message can be stored, the
error-turn save in the handler fails the same way and is swallowed, and the
caller receives the apology with `success = false` instead of the
orchestrator response with `success = true`.  Evaluated here on a fresh
session with message `"hello"` and orchestrator response `"hi there"`:
no assistant row is persisted and the result is the error dictionary
carrying the `TypeError` text. -/
theorem facade_assistant_save_type_error :
    (process_with_history ⟨[], []⟩ "hello" none "sess-1" "hi there").2.2.success = false ∧
    (process_with_history ⟨[], []⟩ "hello" none "sess-1" "hi there").2.2.response =
      technical_difficulties_message ∧
    (process_with_history ⟨[], []⟩ "hello" none "sess-1" "hi there").2.2.error =
      some "save_assistant_message() got an unexpected keyword argument \x27agent_name\x27" ∧
    ((messagesOf (process_with_history ⟨[], []⟩ "hello" none "sess-1" "hi there").1 0).filter
      (fun m => m.role == "assistant")) = [] ∧
    ((messagesOf (process_with_history ⟨[], []⟩ "hello" none "sess-1" "hi there").1 0).map
      (fun m => (m.role, m.content))) = [("user", "hello")] ∧
    (process_with_history ⟨[], []⟩ "hello" none "sess-1" "hi there").2.1 =
      [FacadeEvent.read_history 0, FacadeEvent.save_user_message,
       FacadeEvent.orchestrator_invoked, FacadeEvent.save_assistant_attempt] := by
  exact ⟨rfl, rfl, rfl, by decide, by decide, by decide⟩
